import Mathlib

/-!
# Verification of the AI-BLOG-GENERATOR web application

A shallow embedding of the Flask application (`app.py`), its data model
(`models.py`) and the attribution utility (`attribution_tracker.py`),
together with proofs about the embedded operations.

Conventions of the embedding:
* Python strings are modelled by `String` / `List Char`; `str.lower` by
  `Char.toLower` applied pointwise (the repository only ever feeds ASCII
  keyword tables through it, and every non-ASCII letter is in any case
  outside the character classes the code tests afterwards);
* calls into external libraries (the google-genai client, `requests.post`,
  the markdown renderer, the PDF/DOCX renderers, the password hash) are
  modelled as function parameters ("oracles") of the embedded operation;
* a Python function that can raise is modelled with `Except`;
* the SQLAlchemy tables are modelled as lists of records, a
  `filter_by(...).first()` query as `List.find?`, and `db.session.add`
  followed by `commit` as appending to the list.
-/

namespace BlogGen

/-! ## Python string primitives -/

/-- Pointwise model of `str.lower` (see the header note on non-ASCII). -/
def pyLower (c : Char) : Char := c.toLower

/-- The whitespace class of Python's `str.strip()` / `str.isspace()`
(restricted to the characters that can reach it here). -/
def pySpace (c : Char) : Bool :=
  c == ' ' || c == '\t' || c == '\n' || c == '\r' || c == '\x0b' || c == '\x0c'

/-- `str.strip()` on a character list: drop whitespace from both ends. -/
def pyStrip (l : List Char) : List Char :=
  ((l.dropWhile pySpace).reverse.dropWhile pySpace).reverse

/-- `str.strip()` on a `String`. -/
def pyStripStr (s : String) : String := String.mk (pyStrip s.data)

/-- `needle` begins `hay` (used to model Python's `in` substring test). -/
def startsWithList : List Char → List Char → Bool
  | [], _ => true
  | _ :: _, [] => false
  | a :: as, b :: bs => a == b && startsWithList as bs

/-- Python's `needle in hay` substring test on character lists. -/
def containsSub (needle : List Char) : List Char → Bool
  | [] => startsWithList needle []
  | c :: rest => startsWithList needle (c :: rest) || containsSub needle rest

/-- Python's `needle in hay` on strings, after lowering the haystack is done
by the callers themselves (as the source does). -/
def strIn (needle hay : String) : Bool := containsSub needle.data hay.data

/-- `str.lower()` of a string, as the character list the routines work on. -/
def lowerChars (s : String) : List Char := s.data.map pyLower

/-! ## `detect_category` (app.py lines 91-118) -/

/-- The category keyword table of `detect_category`, in source order. -/
def categoryKeywords : List (String × List String) :=
  [("Tech", ["python", "javascript", "coding", "programming", "development", "web",
             "cloud", "ai", "machine learning", "api", "database", "devops",
             "cybersecurity", "blockchain", "docker", "react", "node", "software",
             "code", "algorithm", "data science", "computer"]),
   ("Beauty", ["skincare", "makeup", "beauty", "cosmetics", "hair", "nail",
               "skincare routine", "anti-aging", "cruelty-free", "wellness"]),
   ("Education", ["learning", "study", "education", "course", "student", "teaching",
                  "school", "university", "academic", "language", "skill"]),
   ("Gaming", ["gaming", "game", "esports", "video game", "console", "pc game",
               "mobile game", "gaming setup", "streaming", "vr"]),
   ("Health", ["fitness", "workout", "health", "diet", "nutrition", "exercise",
               "mental health", "yoga", "meditation", "wellness", "sleep"]),
   ("Travel", ["travel", "trip", "destination", "hotel", "vacation", "tourism",
               "adventure", "backpack", "tour", "explore"]),
   ("Lifestyle", ["lifestyle", "minimalist", "living", "habits", "daily routine",
                  "personal growth", "productivity", "home", "organization",
                  "digital detox"]),
   ("Business", ["business", "startup", "entrepreneurship", "marketing", "leadership",
                 "finance", "management", "strategy", "sales", "remote work"])]

/-- `sum(1 for keyword in keywords if keyword in text)`. -/
def countMatches (kws : List String) (text : List Char) : Nat :=
  kws.countP (fun k => containsSub k.data text)

/-- The `for category, keywords in categories.items()` loop of
`detect_category`: `maxM` is `max_matches`, `det` is `detected_category`,
and an update happens only on a strictly larger match count. -/
def detectLoop (text : List Char) : List (String × List String) → Nat → String → String
  | [], _, det => det
  | (cat, kws) :: rest, maxM, det =>
    if maxM < countMatches kws text then detectLoop text rest (countMatches kws text) cat
    else detectLoop text rest maxM det

/-- `text = (title + " " + details).lower()` (line 106). -/
def catText (title details : String) : List Char := lowerChars (title ++ " " ++ details)

/-- `detect_category(title, details)`: scans
`(title + " " + details).lower()` against the keyword table and keeps the
first strict maximum, starting from `'General'` with zero matches. -/
def detect_category (title : String) (details : String) : String :=
  detectLoop (catText title details) categoryKeywords 0 "General"

/-- The nine names `detect_category` can produce. -/
def categoryNames : List String :=
  ["Tech", "Beauty", "Education", "Gaming", "Health", "Travel", "Lifestyle",
   "Business", "General"]

/-- Running maximum of the match counts over a keyword-table suffix,
seeded with `init` (the loop's `max_matches` on entry). -/
def runMax (text : List Char) (cats : List (String × List String)) (init : Nat) : Nat :=
  cats.foldl (fun m p => max m (countMatches p.2 text)) init

/-- The maximum keyword-match count over all categories for a given
title/details pair. -/
def maxMatches (title details : String) : Nat :=
  runMax (catText title details) categoryKeywords 0

/-! ## `_slugify` (app.py lines 609-613) -/

/-- The character class `[a-z0-9\-\_]` kept by `_slugify`. -/
def goodChar (c : Char) : Bool :=
  ('a' ≤ c && c ≤ 'z') || ('0' ≤ c && c ≤ '9') || c == '-' || c == '_'

/-- `re.sub(r"[^a-z0-9\-\_]+", "_", s)`: each maximal run of characters
outside the class becomes a single `'_'`.  The flag records whether the
previous character was inside such a run. -/
def subBadRuns (inBad : Bool) : List Char → List Char
  | [] => []
  | c :: rest =>
    if goodChar c then c :: subBadRuns false rest
    else if inBad then subBadRuns true rest
    else '_' :: subBadRuns true rest

/-- `re.sub(r"_+", "_", s)`: collapse runs of underscores. -/
def collapseUnderscores : List Char → List Char
  | [] => []
  | [c] => [c]
  | a :: b :: rest =>
    if a == '_' && b == '_' then collapseUnderscores (b :: rest)
    else a :: collapseUnderscores (b :: rest)

/-- `.strip("_")`. -/
def stripUnderscores (l : List Char) : List Char :=
  ((l.dropWhile (fun c => c == '_')).reverse.dropWhile (fun c => c == '_')).reverse

/-- `_slugify(text)`: lower, substitute bad runs, collapse and strip
underscores, truncate to 120 characters, defaulting to `"blog"`. -/
def _slugify (text : String) : String :=
  let s1 := subBadRuns false (text.data.map pyLower)
  let s2 := stripUnderscores (collapseUnderscores s1)
  let s3 := s2.take 120
  if s3.isEmpty then "blog" else String.mk s3

/-! ## `generate_blog` (app.py lines 120-209)

The external world is modelled by oracles: `genaiCall` stands for the whole
google-genai client interaction of lines 155-183 (its result text, or the
message of the exception the client raised), and `restCall` for
`requests.post(url, ...).json()` (the parsed JSON body, or the message of
the `requests.RequestException`).  `restCall` receives the URL and payload
the code builds, so the theorems can speak about the endpoint reached. -/

/-- A JSON value, as `resp.json()` can produce it. -/
inductive J where
  | null
  | bool (b : Bool)
  | num (n : Int)
  | str (s : String)
  | arr (xs : List J)
  | obj (kvs : List (String × J))

/-- Lookup in a JSON object's key/value list (first binding wins, as a
Python dict cannot hold a key twice). -/
def jGet (kvs : List (String × J)) (k : String) : Option J :=
  (kvs.find? (fun p => p.1 == k)).map (fun p => p.2)

/-- Python truthiness of a JSON value. -/
def truthyJ : J → Bool
  | .null => false
  | .bool b => b
  | .num n => n != 0
  | .str s => !s.isEmpty
  | .arr xs => !xs.isEmpty
  | .obj kvs => !kvs.isEmpty

/-- `j[0]` on a JSON value.  The Gemini response's `candidates`/`parts`
fields are lists; on the shapes where CPython would raise (or index into a
string) the model raises too. -/
def indexJ : J → Except String J
  | .arr (x :: _) => .ok x
  | .arr [] => .error "IndexError"
  | _ => .error "TypeError"

/-- `j.get(k, dflt)`: only dictionaries have `.get`; anything else raises
`AttributeError` in CPython. -/
def getJ (j : J) (k : String) (dflt : J) : Except String J :=
  match j with
  | .obj kvs => .ok ((jGet kvs k).getD dflt)
  | _ => .error "AttributeError"

/-- String escaping of `json.dumps` restricted to the characters that need
it for round-tripping (quote and backslash). -/
def escapeJ (s : String) : String :=
  String.mk (s.data.flatMap fun c =>
    if c == '"' then ['\\', '"'] else if c == '\\' then ['\\', '\\'] else [c])

mutual
/-- `json.dumps(j)` with the default separators. -/
def dumpsJ : J → String
  | .null => "null"
  | .bool true => "true"
  | .bool false => "false"
  | .num n => toString n
  | .str s => "\"" ++ escapeJ s ++ "\""
  | .arr xs => "[" ++ String.intercalate ", " (dumpsList xs) ++ "]"
  | .obj kvs => "\x7b" ++ String.intercalate ", " (dumpsKVs kvs) ++ "\x7d"

def dumpsList : List J → List String
  | [] => []
  | x :: xs => dumpsJ x :: dumpsList xs

def dumpsKVs : List (String × J) → List String
  | [] => []
  | (k, v) :: xs => ("\"" ++ escapeJ k ++ "\": " ++ dumpsJ v) :: dumpsKVs xs
end

/-- Lines 200-207: pull the text out of the REST `generateContent`
response.  Dict with a truthy `candidates` list: the first part's text of
the first candidate's content, else the content's own `"text"`; any other
body is returned as `json.dumps(j)`.  `.error` marks the shapes on which
CPython would raise an exception other than `RequestException`. -/
def restExtract (j : J) : Except String String :=
  match j with
  | .obj kvs =>
    match jGet kvs "candidates" with
    | some cj =>
      if truthyJ cj then do
        let c0 ← indexJ cj
        let content ← getJ c0 "content" (.obj [])
        match content with
        | .obj cf =>
          match jGet cf "parts" with
          | some pj =>
            if truthyJ pj then do
              let p0 ← indexJ pj
              let t ← getJ p0 "text" (.str "")
              match t with
              | .str s => .ok s
              | _ => .error "TypeError"
            else
              match (jGet cf "text").getD (.str "") with
              | .str s => .ok s
              | _ => .error "TypeError"
          | none =>
            match (jGet cf "text").getD (.str "") with
            | .str s => .ok s
            | _ => .error "TypeError"
        | _ => .error "TypeError"
      else .ok (dumpsJ j)
    | none => .ok (dumpsJ j)
  | _ => .ok (dumpsJ j)

/-- The exceptions `generate_blog` raises.  `otherErr` is an exception that
escapes without being wrapped (only `requests.RequestException` is caught
around the REST call, so e.g. an `AttributeError` while walking an
unexpected response shape propagates as itself). -/
inductive GenErr where
  | valueErr (msg : String)
  | runtimeErr (msg : String)
  | otherErr (msg : String)
deriving Repr, DecidableEq

/-- Module-level configuration read from the environment (app.py 14-38):
whether `from google import genai` succeeded, `GEMINI_API_KEY` and
`LLM_MODEL`. -/
structure GenConfig where
  hasGoogleGenai : Bool
  geminiApiKey : Option String
  model : String
deriving Repr, DecidableEq

/-- The JSON payload of the REST fallback (lines 190-196). -/
structure RestPayload where
  /-- `payload["contents"][0]["parts"][0]["text"]`. -/
  promptText : String
  /-- `generationConfig.temperature`, kept as its source literal. -/
  temperature : String
  /-- `generationConfig.maxOutputTokens`. -/
  maxOutputTokens : Nat
deriving Repr, DecidableEq

/-- Line 188: the REST endpoint URL. -/
def restUrl (model key : String) : String :=
  "https://generativelanguage.googleapis.com/v1beta/models/" ++ model
    ++ ":generateContent?key=" ++ key

/-- Line 147: `model = MODEL or "text-bison-001"`. -/
def effectiveModel (cfg : GenConfig) : String :=
  if cfg.model.isEmpty then "text-bison-001" else cfg.model

/-- A well-formed `generateContent` response whose first candidate's
content's first part carries `text : s`; the other arguments allow any
surrounding fields, parts and candidates, so the extraction lemmas
quantify over every response of the documented shape. -/
def geminiResponse (s : String) (partRest contentFields candFields topFields : List (String × J))
    (moreParts moreCands : List J) : J :=
  J.obj (("candidates",
    J.arr (J.obj (("content",
      J.obj (("parts",
        J.arr (J.obj (("text", J.str s) :: partRest) :: moreParts)) :: contentFields))
      :: candFields) :: moreCands)) :: topFields)

/-- The `tech_keywords` list of `generate_blog` (lines 132-136). -/
def techKeywords : List String :=
  ["program", "programming", "python", "java", "javascript", "developer",
   "software", "engineer", "code", "coding", "api", "machine learning", "ml",
   "ai", "artificial intelligence", "react", "django", "flask", "node", "rust",
   "go", "c++", "c#"]

/-- Lines 137-151: whether the topic reads technical, and the prompt. -/
def promptFor (title details : String) : String :=
  let lc := lowerChars (title ++ " " ++ details)
  if techKeywords.any (fun k => containsSub k.data lc) then
    "Write a high-quality programming blog article titled '" ++ title ++ "'. " ++ details
  else
    "Write a high-quality blog article titled '" ++ title ++ "'. " ++ details

/-- `generate_blog(title, details)`.  Raises `ValueError` on a blank title
or a missing `GEMINI_API_KEY`; reaches the API through the google-genai
client when the library imported, and otherwise through
`requests.post` on the `generateContent` REST endpoint; a failure of the
chosen path is re-raised as `RuntimeError` with the source's message. -/
def generate_blog (cfg : GenConfig) (title details : String)
    (genaiCall : String → Except String String)
    (restCall : String → RestPayload → Except String J) : Except GenErr String :=
  if title.isEmpty || (pyStrip title.data).isEmpty then
    .error (.valueErr "Title cannot be empty")
  else
    match cfg.geminiApiKey with
    | none => .error (.valueErr "GEMINI_API_KEY is not configured. Please provide GEMINI_API_KEY in .env")
    | some key =>
      if key.isEmpty then
        .error (.valueErr "GEMINI_API_KEY is not configured. Please provide GEMINI_API_KEY in .env")
      else
        let model := effectiveModel cfg
        let prompt := promptFor title details
        if cfg.hasGoogleGenai then
          match genaiCall prompt with
          | .ok text => .ok text
          | .error e =>
            .error (.runtimeErr ("Failed to generate blog via Gemini (google-genai): " ++ e))
        else
          let url := restUrl model key
          let payload : RestPayload :=
            { promptText := prompt, temperature := "0.7", maxOutputTokens := 1024 }
          match restCall url payload with
          | .error e =>
            .error (.runtimeErr ("Failed to generate blog via Gemini REST: " ++ e))
          | .ok j =>
            match restExtract j with
            | .ok s => .ok s
            | .error e => .error (.otherErr e)

/-! ## The data model (models.py) and the request/flash vocabulary -/

/-- A row of the `users` table. -/
structure UserRec where
  id : Nat
  username : String
  email : String
  password_hash : String
deriving Repr, DecidableEq

/-- A row of the `user_blogs` table (`created_at` kept as its rendered
string). -/
structure UserBlogRec where
  id : Nat
  user_id : Nat
  title : String
  details : String
  body : String
  body_html : String
  filename_base : Option String
  category : String
  created_at : String
deriving Repr, DecidableEq

/-- A call to Flask's `flash(message, category)`. -/
structure FlashMsg where
  message : String
  category : String
deriving Repr, DecidableEq

/-- One of the blog dicts the `index` POST handler builds (lines 335-346):
`_idx` is positional and therefore left implicit. -/
structure GenBlog where
  title : String
  details : String
  body : String
  body_html : String
  date : String
  filename_base : String
deriving Repr, DecidableEq

/-! ## The `index` POST handler (app.py lines 304-426)

Only what a POST does to the observable state is embedded: the outcome
(redirect or 200 render), the flashes raised, the `user_blogs` rows after
the request, the `(title, details)` pairs on which `generate_blog` was
invoked, and the blogs stashed for later downloads.  The markdown renderer
and the generator are oracles; writing `blogs.csv`/`blogs.json` and the
server-side session file are not given further structure. -/

/-- `str.splitlines()` restricted to `'\n'` (the only terminator the form
data contains; a trailing empty line, which Python drops, is skipped by the
blank-line test downstream either way). -/
def splitLinesCh : List Char → List (List Char)
  | [] => [[]]
  | c :: rest =>
    if c == '\n' then [] :: splitLinesCh rest
    else
      match splitLinesCh rest with
      | [] => [[c]]
      | l :: ls => (c :: l) :: ls

/-- `line.split('|', 1)`: the part before the first `'|'`, and the rest when
the bar occurs. -/
def splitFirstBar : List Char → List Char × Option (List Char)
  | [] => ([], none)
  | c :: rest =>
    if c == '|' then ([], some rest)
    else
      let (a, b) := splitFirstBar rest
      (c :: a, b)

/-- Lines 318-323: the non-blank lines of the (already stripped) input,
each parsed as `Title | Details` with both parts stripped. -/
def parsedPairs (inputs : String) : List (String × String) :=
  (splitLinesCh inputs.data).filterMap fun line =>
    if (pyStrip line).isEmpty then none
    else
      let (t, rest) := splitFirstBar line
      some (String.mk (pyStrip t),
            match rest with
            | some d => String.mk (pyStrip d)
            | none => "")

/-- The blog dict built on a successful generation (lines 335-346): the
body rendered to HTML by the markdown oracle, the timestamp, and the
filename base from `_slugify`. -/
def mkGenBlog (md : String → String) (now t d body : String) : GenBlog :=
  { title := t, details := d, body := body, body_html := md body,
    date := now, filename_base := _slugify t }

/-- The per-line generation loop (lines 325-350): a success appends a blog,
a failure flashes `Error generating blog '<title>': <message>` and
continues.  The third component records every pair handed to the
generator, in order. -/
def genLoop (gen : String → String → Except String String) (md : String → String)
    (now : String) :
    List (String × String) → List GenBlog × List FlashMsg × List (String × String)
  | [] => ([], [], [])
  | (t, d) :: rest =>
    match gen t d with
    | .ok body =>
      let (bs, fs, cs) := genLoop gen md now rest
      (mkGenBlog md now t d body :: bs, fs, (t, d) :: cs)
    | .error m =>
      let (bs, fs, cs) := genLoop gen md now rest
      (bs, ⟨"Error generating blog '" ++ t ++ "': " ++ m, "error"⟩ :: fs, (t, d) :: cs)

/-- The `UserBlog(...)` constructed at lines 397-405 (the autoincrement id
is assigned at commit, here afterwards by `assignIds`). -/
def toUserBlog (uid : Nat) (b : GenBlog) : UserBlogRec :=
  { id := 0, user_id := uid, title := b.title, details := b.details,
    body := b.body, body_html := b.body_html,
    filename_base := if b.filename_base.isEmpty then none else some b.filename_base,
    category := detect_category b.title b.details, created_at := "" }

/-- The database writes of the inline branch, exactly as indented in the
source (lines 386-413): the block that adds one `UserBlog` row *for every
blog in `blogs`* sits inside the `for i, b in enumerate(blogs)` annotation
loop, so it runs once per blog and each title is stored `len(blogs)`
times.  An anonymous visitor stores nothing. -/
def persistNested (user : Option Nat) (blogs : List GenBlog) : List UserBlogRec :=
  match user with
  | none => []
  | some uid => blogs.foldl (fun acc _b => acc ++ blogs.map (toUserBlog uid)) []

/-- SQLite's autoincrement at commit: consecutive ids from `nextId`. -/
def assignIds (nextId : Nat) (l : List UserBlogRec) : List UserBlogRec :=
  l.mapIdx (fun i r => { r with id := nextId + i })

/-- Where an `index` POST sends the browser. -/
inductive IndexOutcome where
  | redirectIndex
  | redirectShow (format : String)
  /-- HTTP 200, `render_template("blog_list.html", blogs=...)`. -/
  | renderList (blogs : List GenBlog)
deriving Repr, DecidableEq

/-- Everything observable about one `index` POST. -/
structure IndexResult where
  outcome : IndexOutcome
  flashes : List FlashMsg
  db : List UserBlogRec
  genCalls : List (String × String)
  sessionLast : List GenBlog
deriving Repr, DecidableEq

/-- The POST half of `index` for user `user` (`none` = anonymous):
lines 306-424 with the generator, markdown renderer and clock as oracles,
acting on `user_blogs` rows `db0` whose next autoincrement id is
`nextId`. -/
def index_post (user : Option Nat) (gen : String → String → Except String String)
    (md : String → String) (now : String) (raw save_format : String)
    (db0 : List UserBlogRec) (nextId : Nat) : IndexResult :=
  let inputs := pyStripStr raw
  if inputs.isEmpty then
    { outcome := .redirectIndex,
      flashes := [⟨"Please enter at least one blog title", "error"⟩],
      db := db0, genCalls := [], sessionLast := [] }
  else
    let (blogs, genFlashes, calls) := genLoop gen md now (parsedPairs inputs)
    if blogs.isEmpty then
      { outcome := .redirectIndex,
        flashes := genFlashes ++ [⟨"No blogs were generated successfully", "error"⟩],
        db := db0, genCalls := calls, sessionLast := [] }
    else if save_format == "csv" then
      { outcome := .redirectShow "csv",
        flashes := genFlashes ++ [⟨"Blogs saved successfully as CSV", "success"⟩],
        db := db0, genCalls := calls, sessionLast := [] }
    else if save_format == "json" then
      { outcome := .redirectShow "json",
        flashes := genFlashes ++ [⟨"Blogs saved successfully as JSON", "success"⟩],
        db := db0, genCalls := calls, sessionLast := [] }
    else
      let added := assignIds nextId (persistNested user blogs)
      { outcome := .renderList blogs, flashes := genFlashes,
        db := db0 ++ added, genCalls := calls, sessionLast := blogs }

/-! ## Per-blog routes (app.py lines 542-596) -/

/-- `UserBlog.query.filter_by(id=blog_id, user_id=uid).first()`. -/
def firstMatch (blog_id uid : Nat) (db : List UserBlogRec) : Option UserBlogRec :=
  db.find? (fun b => b.id == blog_id && b.user_id == uid)

/-- What `/blog/<int:blog_id>` can do. -/
inductive ViewOutcome where
  | redirectLogin (f : FlashMsg)
  | redirectMyBlogs (f : FlashMsg)
  /-- HTTP 200 rendering the single blog. -/
  | renderSingle (b : UserBlogRec)
deriving Repr, DecidableEq

/-- `view_blog` (lines 542-564). -/
def view_blog (user : Option Nat) (blog_id : Nat) (db : List UserBlogRec) : ViewOutcome :=
  match user with
  | none => .redirectLogin ⟨"Please log in to view your blogs", "error"⟩
  | some uid =>
    match firstMatch blog_id uid db with
    | none => .redirectMyBlogs ⟨"Blog not found", "error"⟩
    | some b => .renderSingle b

/-- A JSON API reply: HTTP status code, and the `error` or `message`
payload field. -/
inductive ApiReply where
  | failure (status : Nat) (error : String)
  | success (status : Nat) (message : String)
deriving Repr, DecidableEq

/-- `delete_blog` (lines 566-582): the reply and the table afterwards.
`db.session.delete` removes the row with the found record's primary key. -/
def delete_blog (user : Option Nat) (blog_id : Nat) (db : List UserBlogRec) :
    ApiReply × List UserBlogRec :=
  match user with
  | none => (.failure 401 "Unauthorized", db)
  | some uid =>
    match firstMatch blog_id uid db with
    | none => (.failure 404 "Blog not found", db)
    | some b =>
      (.success 200 "Blog deleted successfully", db.filter (fun x => !(x.id == b.id)))

/-- `clear_all_blogs` (lines 584-596):
`UserBlog.query.filter_by(user_id=uid).delete()`. -/
def clear_all_blogs (user : Option Nat) (db : List UserBlogRec) :
    ApiReply × List UserBlogRec :=
  match user with
  | none => (.failure 401 "Unauthorized", db)
  | some uid =>
    (.success 200 "All blogs cleared successfully",
     db.filter (fun b => !(b.user_id == uid)))

/-! ## The global error handler (app.py lines 598-606) -/

/-- An exception reaching `@app.errorhandler(Exception)`: either a werkzeug
`HTTPException` carrying a description, or anything else carrying its
`str(e)`. -/
inductive PyExc where
  | http (description : String)
  | other (msg : String)
deriving Repr, DecidableEq

/-- `handle_error(e)`: the flash raised and the route redirected to. -/
def handle_error (e : PyExc) : FlashMsg × String :=
  let error_msg :=
    match e with
    | .http d => d
    | .other s => if s.isEmpty then "An unexpected error occurred" else s
  (⟨error_msg, "error"⟩, "index")

/-! ## Download (app.py lines 609-824) -/

/-- `os.path.basename` on a POSIX path: everything after the last `'/'`. -/
def basenamePosix (s : String) : String :=
  String.mk ((s.data.reverse.takeWhile (fun c => !(c == '/'))).reverse)

/-- The extension `os.path.splitext(s)[1]`: the suffix from the last dot,
unless every character before that dot is itself a dot (so `.bashrc` has
no extension). -/
def splitextExt (s : String) : String :=
  let cs := s.data
  let afterDot := cs.reverse.takeWhile (fun c => !(c == '.'))
  if afterDot.length == cs.length then ""
  else
    let pre := cs.take (cs.length - afterDot.length - 1)
    if pre.all (fun c => c == '.') then ""
    else String.mk ('.' :: afterDot.reverse)

/-- Lines 759-767 and 812-820: the served filename, honouring the
`download_name` query parameter (basename'd, extension added when
missing). -/
def resolveName (download_name : Option String) (filename ext : String) : String :=
  match download_name with
  | none => filename
  | some dn =>
    let safe := basenamePosix dn
    if (splitextExt safe).isEmpty then safe ++ ext else safe

/-- The triggers of `_sanitize_blog_content` (lines 630, 657). -/
def sanitizeTriggers : List String :=
  ["write a ", "write an ", "you are a ", "write a high-quality", "write an engaging"]

/-- `_strip_text_prefix`'s `text.split('\n\n')`. -/
def splitOnDoubleNL : List Char → List (List Char)
  | '\n' :: '\n' :: rest => [] :: splitOnDoubleNL rest
  | c :: rest =>
    match splitOnDoubleNL rest with
    | [] => [[c]]
    | l :: ls => (c :: l) :: ls
  | [] => [[]]

/-- `_strip_text_prefix` (lines 624-633): drop a leading paragraph that
looks like a generation instruction. -/
def stripTextPrefix (text : String) : String :=
  if text.isEmpty then text
  else
    let parts := splitOnDoubleNL text.data
    let first := (pyStrip parts.headI).map pyLower
    if sanitizeTriggers.any (fun t => containsSub t.data first) && decide (1 < parts.length) then
      String.mk ((List.intercalate ['\n', '\n'] (parts.drop 1)).dropWhile pySpace)
    else text

/-- The blog dict as the download section reads it (whether it came from
`to_dict()` or from the stashed inline blogs). -/
structure BlogView where
  title : String
  details : String
  body : String
  body_html : String
  date : String
deriving Repr, DecidableEq

/-- `_sanitize_blog_content` (lines 616-688): the body through
`_strip_text_prefix`, the HTML body through the BeautifulSoup-dependent
`_strip_html_prefix`, which stays an oracle. -/
def sanitizeView (stripHtml : String → String) (b : BlogView) : BlogView :=
  { b with body := stripTextPrefix b.body, body_html := stripHtml b.body_html }

/-- The view of a stored row (`to_dict()`, models.py lines 46-58). -/
def viewOfRec (r : UserBlogRec) : BlogView :=
  ⟨r.title, r.details, r.body, r.body_html, r.created_at⟩

/-- The view of a stashed inline blog dict. -/
def viewOfGen (b : GenBlog) : BlogView :=
  ⟨b.title, b.details, b.body, b.body_html, b.date⟩

/-- A served document's content: a text body, or renderer-produced bytes. -/
inductive DocContent where
  | textDoc (s : String)
  | pdfDoc (bytes : List Nat)
  | docxDoc (bytes : List Nat)
deriving Repr, DecidableEq

/-- What `/download/<fmt>/<int:idx>` replies. -/
inductive DownloadOutcome where
  | document (filename : String) (mimetype : String) (content : DocContent)
  | redirectIndex (f : FlashMsg)
deriving Repr, DecidableEq

/-- The `esc` helper of the CSV branch (lines 800-801). -/
def csvEsc (s : String) : String := "\"" ++ s.replace "\"" "\"\"" ++ "\""

/-- `json.dumps(blog, ensure_ascii=False, indent=2)` up to whitespace and
field order: the JSON branch's content (only its existence matters to the
properties proved here). -/
def jsonOfView (b : BlogView) : String :=
  dumpsJ (.obj [("title", .str b.title), ("details", .str b.details),
                ("body", .str b.body), ("body_html", .str b.body_html),
                ("date", .str b.date)])

/-- Lines 742-824: the per-format dispatch of `download_blog`, once a blog
dict is in hand.  The PDF and DOCX renderers are oracles producing bytes. -/
def download_dispatch (fmt : String) (blog : BlogView) (download_name : Option String)
    (pdfRender : String → String → Option String → List Nat)
    (docxRender : String → String → List Nat) : DownloadOutcome :=
  let filename_base := _slugify blog.title
  if fmt == "html" then
    let content := "<!doctype html><html><head><meta charset=\"utf-8\"></head><body>"
      ++ blog.body_html ++ "</body></html>"
    let filename := filename_base ++ ".html"
    .document (resolveName download_name filename (splitextExt filename))
      "text/html; charset=utf-8" (.textDoc content)
  else if fmt == "pdf" then
    let html_content := if blog.body_html.isEmpty then none else some blog.body_html
    .document (resolveName download_name (filename_base ++ ".pdf") ".pdf")
      "application/pdf" (.pdfDoc (pdfRender "" blog.body html_content))
  else if fmt == "docx" then
    .document (resolveName download_name (filename_base ++ ".docx") ".docx")
      "application/vnd.openxmlformats-officedocument.wordprocessingml.document"
      (.docxDoc (docxRender "" blog.body))
  else if fmt == "md" || fmt == "markdown" then
    let filename := filename_base ++ ".md"
    .document (resolveName download_name filename (splitextExt filename))
      "text/markdown; charset=utf-8" (.textDoc blog.body)
  else if fmt == "txt" then
    let filename := filename_base ++ ".txt"
    .document (resolveName download_name filename (splitextExt filename))
      "text/plain; charset=utf-8" (.textDoc blog.body)
  else if fmt == "json" then
    let filename := filename_base ++ ".json"
    .document (resolveName download_name filename (splitextExt filename))
      "application/json; charset=utf-8" (.textDoc (jsonOfView blog))
  else if fmt == "csv" then
    let content := "title,details,body,date\n" ++ csvEsc blog.title ++ ","
      ++ csvEsc blog.details ++ "," ++ csvEsc blog.body ++ "," ++ csvEsc blog.date ++ "\n"
    let filename := filename_base ++ ".csv"
    .document (resolveName download_name filename (splitextExt filename))
      "text/csv; charset=utf-8" (.textDoc content)
  else
    .redirectIndex ⟨"Unsupported download format", "error"⟩

/-- The format strings the dispatch above serves a document for. -/
def supportedFormats : List String :=
  ["html", "pdf", "docx", "md", "markdown", "txt", "json", "csv"]

/-- `download_blog(fmt, idx)` (lines 691-824): an authenticated user's
database row with id `idx` wins; otherwise the stash of the last inline
generation (`sessionBlogs`) is indexed; with neither, flash + redirect. -/
def download_blog (user : Option Nat) (fmt : String) (idx : Nat)
    (db : List UserBlogRec) (sessionBlogs : List GenBlog)
    (stripHtml : String → String) (download_name : Option String)
    (pdfRender : String → String → Option String → List Nat)
    (docxRender : String → String → List Nat) : DownloadOutcome :=
  let fromDb : Option BlogView :=
    match user with
    | some uid => (firstMatch idx uid db).map viewOfRec
    | none => none
  let blogOpt : Option BlogView :=
    match fromDb with
    | some b => some b
    | none => (sessionBlogs.get? idx).map viewOfGen
  match blogOpt with
  | none => .redirectIndex ⟨"Requested blog not found", "error"⟩
  | some b => download_dispatch fmt (sanitizeView stripHtml b) download_name pdfRender docxRender

/-! ## Registration (app.py lines 1259-1301) and the `users` schema -/

/-- The column options models.py declares (lines 13-14). -/
structure ColumnSpec where
  unique : Bool
  nullable : Bool
  indexed : Bool
deriving Repr, DecidableEq

/-- `username = db.Column(db.String(80), unique=True, nullable=False, index=True)`. -/
def usersUsernameColumn : ColumnSpec := ⟨true, false, true⟩

/-- `email = db.Column(db.String(120), unique=True, nullable=False, index=True)`. -/
def usersEmailColumn : ColumnSpec := ⟨true, false, true⟩

/-- The POST form of `/register` (all fields already as submitted;
`terms` is the truthiness of `request.form.get("terms")`). -/
structure RegForm where
  first_name : String
  last_name : String
  username : String
  email : String
  password : String
  terms : Bool
deriving Repr, DecidableEq

/-- Where `register` redirects, with its flash. -/
inductive RegOutcome where
  | redirectRegister (f : FlashMsg)
  | redirectLogin (f : FlashMsg)
deriving Repr, DecidableEq

/-- `register` POST (lines 1261-1299): strip the fields, validate, check
both uniqueness constraints by query, and only then insert.  `hash` is the
werkzeug password hasher, `nextId` the autoincrement id. -/
def register (form : RegForm) (users : List UserRec) (nextId : Nat)
    (hash : String → String) : RegOutcome × List UserRec :=
  let first_name := pyStripStr form.first_name
  let username := pyStripStr form.username
  let email := pyStripStr form.email
  let password := pyStripStr form.password
  if first_name.isEmpty || username.isEmpty || email.isEmpty || password.isEmpty then
    (.redirectRegister ⟨"All fields are required", "error"⟩, users)
  else if !form.terms then
    (.redirectRegister ⟨"You must agree to the terms and conditions", "error"⟩, users)
  else if (users.find? (fun u => u.username == username)).isSome then
    (.redirectRegister ⟨"Username already exists", "error"⟩, users)
  else if (users.find? (fun u => u.email == email)).isSome then
    (.redirectRegister ⟨"Email already registered", "error"⟩, users)
  else
    (.redirectLogin ⟨"Account created successfully! Please log in.", "success"⟩,
     users ++ [{ id := nextId, username := username, email := email,
                 password_hash := hash password }])

/-- The claimed table invariant: no two rows share a username and no two
share an email. -/
def usersUnique (users : List UserRec) : Prop :=
  users.Pairwise (fun a b => a.username ≠ b.username ∧ a.email ≠ b.email)

/-! ## `AttributionTracker` (attribution_tracker.py lines 77-139) -/

/-- The `deployment_info` dict handed to `log_deployment`. -/
structure DeploymentInfo where
  host : Option String
  attributed : Bool
  missing : List String
deriving Repr, DecidableEq

/-- An entry of `attribution_logs.json`. -/
structure AttrLogEntry where
  timestamp : String
  host : String
  attributed : Bool
  missing_attribution : List String
deriving Repr, DecidableEq

/-- Lines 82-87: the entry built from the clock and the info dict. -/
def mkLogEntry (now : String) (info : DeploymentInfo) : AttrLogEntry :=
  { timestamp := now, host := info.host.getD "unknown",
    attributed := info.attributed, missing_attribution := info.missing }

/-- `_generate_warning` (lines 116-139).  Its first statement is an
f-string that interpolates the local variable `missing_items`, but
`missing_items` is only assigned on the line after the f-string, so in
CPython every call raises `UnboundLocalError` before any string is built;
the `warning.format(...)` call below the assignment is never reached. -/
def generate_warning (_entry : AttrLogEntry) : Except String String :=
  .error "UnboundLocalError: local variable 'missing_items' referenced before assignment"

/-- `log_deployment` (lines 77-96): append the entry to the log, then, for
an unattributed deployment, call `_generate_warning`; an attributed one
returns `None`.  The pair is (log file afterwards, returned value or
escaped exception). -/
def log_deployment (now : String) (info : DeploymentInfo) (logs : List AttrLogEntry) :
    List AttrLogEntry × Except String (Option String) :=
  let entry := mkLogEntry now info
  let logs2 := logs ++ [entry]
  if !entry.attributed then
    match generate_warning entry with
    | .ok w => (logs2, .ok (some w))
    | .error e => (logs2, .error e)
  else (logs2, .ok none)

/-! ## Helper lemmas -/

theorem mem_dropWhile_mem {p : Char → Bool} {l : List Char} {c : Char}
    (h : c ∈ l.dropWhile p) : c ∈ l := by
  induction l with
  | nil => simp [List.dropWhile] at h
  | cons a as ih =>
    rw [List.dropWhile] at h
    by_cases hp : p a
    · simp only [hp] at h
      exact List.mem_cons_of_mem _ (ih h)
    · simpa [hp] using h

theorem mem_pyStrip_mem {l : List Char} {c : Char} (h : c ∈ pyStrip l) : c ∈ l := by
  unfold pyStrip at h
  rw [List.mem_reverse] at h
  have h1 := mem_dropWhile_mem h
  rw [List.mem_reverse] at h1
  exact mem_dropWhile_mem h1

theorem mem_subBadRuns_good {l : List Char} {flag : Bool} {c : Char}
    (h : c ∈ subBadRuns flag l) : goodChar c = true := by
  induction l generalizing flag with
  | nil => simp [subBadRuns] at h
  | cons a as ih =>
    rw [subBadRuns] at h
    by_cases hg : goodChar a
    · simp only [hg, if_pos] at h
      rcases List.mem_cons.mp h with rfl | h
      · exact hg
      · exact ih h
    · simp only [hg] at h
      by_cases hf : flag
      · simp only [hf, if_pos, if_neg] at h
        exact ih h
      · simp only [hf] at h
        rcases List.mem_cons.mp h with rfl | h
        · rfl
        · exact ih h

theorem mem_collapseUnderscores_mem {l : List Char} {c : Char}
    (h : c ∈ collapseUnderscores l) : c ∈ l := by
  induction l with
  | nil => simp [collapseUnderscores] at h
  | cons a as ih =>
    match as, h with
    | [], h => simpa [collapseUnderscores] using h
    | b :: bs, h =>
      rw [collapseUnderscores] at h
      by_cases hab : (a == '_' && b == '_') = true
      · simp only [hab, if_pos] at h
        exact List.mem_cons_of_mem _ (ih h)
      · simp only [hab] at h
        rcases List.mem_cons.mp h with rfl | h
        · exact List.mem_cons_self _ _
        · exact List.mem_cons_of_mem _ (ih h)

theorem mem_stripUnderscores_mem {l : List Char} {c : Char}
    (h : c ∈ stripUnderscores l) : c ∈ l := by
  unfold stripUnderscores at h
  rw [List.mem_reverse] at h
  have h1 := mem_dropWhile_mem h
  rw [List.mem_reverse] at h1
  exact mem_dropWhile_mem h1

theorem runMax_nil (text : List Char) (init : Nat) : runMax text [] init = init := rfl

theorem runMax_cons (text : List Char) (cat : String) (kws : List String)
    (rest : List (String × List String)) (init : Nat) :
    runMax text ((cat, kws) :: rest) init
      = runMax text rest (max init (countMatches kws text)) := rfl

theorem le_runMax (text : List Char) (cats : List (String × List String)) (init : Nat) :
    init ≤ runMax text cats init := by
  induction cats generalizing init with
  | nil => exact le_refl _
  | cons c rest ih =>
    obtain ⟨cat, kws⟩ := c
    rw [runMax_cons]
    exact le_trans (le_max_left _ _) (ih _)

theorem countMatches_le_runMax (text : List Char) {cats : List (String × List String)}
    (init : Nat) {p : String × List String} (hp : p ∈ cats) :
    countMatches p.2 text ≤ runMax text cats init := by
  induction cats generalizing init with
  | nil => simp at hp
  | cons c rest ih =>
    obtain ⟨cat, kws⟩ := c
    rw [runMax_cons]
    rcases List.mem_cons.mp hp with rfl | hp
    · exact le_trans (le_max_right init _) (le_runMax _ _ _)
    · exact ih _ hp

theorem runMax_attained (text : List Char) (cats : List (String × List String)) (init : Nat) :
    runMax text cats init = init
      ∨ ∃ p ∈ cats, countMatches p.2 text = runMax text cats init := by
  induction cats generalizing init with
  | nil => exact Or.inl rfl
  | cons c rest ih =>
    obtain ⟨cat, kws⟩ := c
    rw [runMax_cons]
    rcases ih (max init (countMatches kws text)) with h | ⟨p, hp, hcnt⟩
    · rcases Nat.le_total (countMatches kws text) init with hle | hle
      · rw [Nat.max_eq_left hle] at h ⊢
        exact Or.inl h
      · refine Or.inr ⟨(cat, kws), List.mem_cons_self _ _, ?_⟩
        rw [h, Nat.max_eq_right hle]
    · exact Or.inr ⟨p, List.mem_cons_of_mem _ hp, hcnt⟩

/-- The strict-maximum loop of `detect_category` returns the first category
whose match count equals the running maximum, when that maximum beats the
incoming `max_matches`, and the incoming `detected_category` otherwise. -/
theorem detectLoop_eq (text : List Char) (cats : List (String × List String))
    (maxM : Nat) (det : String) :
    detectLoop text cats maxM det =
      if maxM < runMax text cats maxM then
        ((cats.find? (fun p => countMatches p.2 text == runMax text cats maxM)).map
          Prod.fst).getD det
      else det := by
  induction cats generalizing maxM det with
  | nil => simp [detectLoop, runMax_nil]
  | cons c rest ih =>
    obtain ⟨cat, kws⟩ := c
    rw [detectLoop]
    by_cases hup : maxM < countMatches kws text
    · rw [if_pos hup, ih]
      have hmax : max maxM (countMatches kws text) = countMatches kws text :=
        Nat.max_eq_right (le_of_lt hup)
      rw [runMax_cons, hmax]
      by_cases heq : countMatches kws text = runMax text rest (countMatches kws text)
      · rw [List.find?_cons_of_pos _ (by simpa using heq), ← heq,
           if_neg (lt_irrefl _), if_pos hup]
        simp
      · have hlt : countMatches kws text < runMax text rest (countMatches kws text) :=
          lt_of_le_of_ne (le_runMax _ _ _) heq
        rw [List.find?_cons_of_neg _ (by simpa using heq)]
        rw [if_pos hlt, if_pos (lt_trans hup hlt)]
        cases hfind : rest.find?
            (fun p => countMatches p.2 text == runMax text rest (countMatches kws text)) with
        | none =>
          rcases runMax_attained text rest (countMatches kws text) with h | ⟨p, hp, hcnt⟩
          · omega
          · have := List.find?_eq_none.mp hfind p hp
            simp [hcnt] at this
        | some p => simp
    · rw [if_neg hup, ih]
      have hmax : max maxM (countMatches kws text) = maxM :=
        Nat.max_eq_left (Nat.le_of_not_lt hup)
      rw [runMax_cons, hmax]
      by_cases heq : countMatches kws text = runMax text rest maxM
      · have hEq : runMax text rest maxM = maxM :=
          le_antisymm (heq ▸ Nat.le_of_not_lt hup) (le_runMax _ _ _)
        rw [List.find?_cons_of_pos _ (by simpa using heq)]
        simp [hEq]
      · rw [List.find?_cons_of_neg _ (by simpa using heq)]

/-- When the running maximum strictly beats the seed, some category attains
it, so the `find?` of `detectLoop_eq` succeeds. -/
theorem detect_find_isSome (text : List Char) (cats : List (String × List String))
    (maxM : Nat) (h : maxM < runMax text cats maxM) :
    ∃ p, cats.find? (fun p => countMatches p.2 text == runMax text cats maxM) = some p := by
  rcases runMax_attained text cats maxM with he | ⟨p, hp, hcnt⟩
  · omega
  · cases hfind : cats.find? (fun p => countMatches p.2 text == runMax text cats maxM) with
    | some q => exact ⟨q, rfl⟩
    | none =>
      have := List.find?_eq_none.mp hfind p hp
      simp [hcnt] at this

/-! ## Claim theorems -/

/-- **C9.** For every input string, `_slugify` returns a non-empty string of
at most 120 characters drawn from lowercase letters, digits, hyphen and
underscore (the class `goodChar`); the download filename bases are built
from exactly this function, so they satisfy the same bound. -/
theorem claim_C9_slugify_sound (t : String) :
    (_slugify t).data ≠ [] ∧ (_slugify t).data.length ≤ 120 ∧
    ∀ c ∈ (_slugify t).data, goodChar c = true := by
  unfold _slugify
  set s2 := stripUnderscores (collapseUnderscores (subBadRuns false (t.data.map pyLower))) with hs2
  by_cases he : (s2.take 120).isEmpty
  · rw [if_pos he]
    refine ⟨by decide, by decide, by decide⟩
  · rw [if_neg he]
    rw [List.isEmpty_iff] at he
    refine ⟨he, ?_, ?_⟩
    · show (s2.take 120).length ≤ 120
      rw [List.length_take]
      exact Nat.min_le_left 120 s2.length
    · intro c hc
      have h1 : c ∈ s2 := List.take_subset _ _ hc
      have h2 := mem_stripUnderscores_mem (hs2 ▸ h1)
      exact mem_subBadRuns_good (mem_collapseUnderscores_mem h2)

/-- **C10.** `detect_category` always returns one of the nine fixed names;
it returns `'General'` exactly when no category keyword occurs as a
substring of the lowercased concatenation of title and details; and
whenever some keyword matches, it returns the first category in table
order whose match count equals the maximum over all categories. -/
theorem claim_C10_detect_category (title details : String) :
    detect_category title details ∈ categoryNames ∧
    (detect_category title details = "General" ↔
      ∀ p ∈ categoryKeywords, ∀ k ∈ p.2,
        containsSub k.data (catText title details) = false) ∧
    (∀ p ∈ categoryKeywords,
      countMatches p.2 (catText title details) ≤ maxMatches title details) ∧
    (0 < maxMatches title details →
      ∃ p, categoryKeywords.find?
          (fun q => countMatches q.2 (catText title details) == maxMatches title details)
          = some p ∧ detect_category title details = p.1) := by
  have hnames : ∀ p ∈ categoryKeywords, p.1 ∈ categoryNames ∧ p.1 ≠ "General" := by decide
  have hmain := detectLoop_eq (catText title details) categoryKeywords 0 "General"
  have hdc : detect_category title details
      = detectLoop (catText title details) categoryKeywords 0 "General" := rfl
  have hM : runMax (catText title details) categoryKeywords 0 = maxMatches title details := rfl
  rw [← hdc, hM] at hmain
  have hfirst : 0 < maxMatches title details →
      ∃ p, categoryKeywords.find?
          (fun q => countMatches q.2 (catText title details) == maxMatches title details)
          = some p ∧ detect_category title details = p.1 := by
    intro h
    obtain ⟨p, hfind⟩ := detect_find_isSome (catText title details) categoryKeywords 0 h
    rw [hM] at hfind
    refine ⟨p, hfind, ?_⟩
    rw [hmain, if_pos h, hfind]
    rfl
  refine ⟨?_, ⟨?_, ?_⟩, fun p hp => countMatches_le_runMax _ 0 hp, hfirst⟩
  · by_cases h : 0 < maxMatches title details
    · obtain ⟨p, hfind, hres⟩ := hfirst h
      rw [hres]
      exact (hnames p (List.mem_of_find?_eq_some hfind)).1
    · rw [hmain, if_neg h]
      decide
  · intro hGen p hp k hk
    by_contra hne
    have htrue : containsSub k.data (catText title details) = true := by
      cases hcs : containsSub k.data (catText title details) with
      | false => exact absurd hcs hne
      | true => rfl
    have hpos : 0 < countMatches p.2 (catText title details) :=
      List.countP_pos_iff.mpr ⟨k, hk, htrue⟩
    have hposM : 0 < maxMatches title details :=
      lt_of_lt_of_le hpos (countMatches_le_runMax _ 0 hp)
    obtain ⟨q, hfind, hres⟩ := hfirst hposM
    exact (hnames q (List.mem_of_find?_eq_some hfind)).2 (hres ▸ hGen)
  · intro hall
    have hzero : maxMatches title details = 0 := by
      rcases runMax_attained (catText title details) categoryKeywords 0 with h0 | ⟨p, hp, hcnt⟩
      · exact hM ▸ h0
      · have : countMatches p.2 (catText title details) = 0 :=
          List.countP_eq_zero.mpr (fun k hk => by simp [hall p hp k hk])
        rw [← hM, ← hcnt, this]
    rw [hmain, if_neg (by omega)]

theorem firstMatch_eq_none {blog_id uid : Nat} {db : List UserBlogRec}
    (h : ∀ r ∈ db, r.id = blog_id → r.user_id ≠ uid) :
    firstMatch blog_id uid db = none := by
  apply List.find?_eq_none.mpr
  intro b hb
  simp only [Bool.and_eq_true, beq_iff_eq, not_and]
  exact fun hid => h b hb hid

/-- **C2.** For an authenticated user whose id owns none of the rows with
the requested blog id, `view_blog` and the database path of
`download_blog` answer with the not-found outcome, `delete_blog` answers
404 leaving the table unchanged, and `clear_all_blogs` removes exactly the
rows whose `user_id` is the caller's, so another user's rows are never
returned, served or deleted. -/
theorem claim_C2_user_isolation (uid blog_id : Nat) (db : List UserBlogRec)
    (fmt : String) (stripHtml : String → String) (dn : Option String)
    (pdfR : String → String → Option String → List Nat)
    (docxR : String → String → List Nat)
    (hforeign : ∀ r ∈ db, r.id = blog_id → r.user_id ≠ uid) :
    view_blog (some uid) blog_id db = .redirectMyBlogs ⟨"Blog not found", "error"⟩ ∧
    delete_blog (some uid) blog_id db = (.failure 404 "Blog not found", db) ∧
    download_blog (some uid) fmt blog_id db [] stripHtml dn pdfR docxR
      = .redirectIndex ⟨"Requested blog not found", "error"⟩ ∧
    (∀ r ∈ db, r.user_id ≠ uid → r ∈ (clear_all_blogs (some uid) db).2) ∧
    (∀ r ∈ (clear_all_blogs (some uid) db).2, r ∈ db) ∧
    (∀ r ∈ db, r ∉ (clear_all_blogs (some uid) db).2 → r.user_id = uid) := by
  have hnone := firstMatch_eq_none hforeign
  refine ⟨?_, ?_, ?_, ?_, ?_, ?_⟩
  · simp [view_blog, hnone]
  · simp [delete_blog, hnone]
  · simp [download_blog, hnone]
  · intro r hr hru
    simp only [clear_all_blogs, List.mem_filter, hr, true_and]
    simpa using hru
  · intro r hr
    exact List.mem_of_mem_filter hr
  · intro r hr hnot
    by_contra hne
    apply hnot
    simp only [clear_all_blogs, List.mem_filter, hr, true_and]
    simpa using hne

/-- **C2 witness.** A concrete foreign row: user 1 requests blog id 7,
which belongs to user 2. -/
theorem claim_C2_user_isolation_witness :
    view_blog (some 1) 7 [⟨7, 2, "t", "", "", "", none, "General", ""⟩]
      = .redirectMyBlogs ⟨"Blog not found", "error"⟩ :=
  (claim_C2_user_isolation 1 7 [⟨7, 2, "t", "", "", "", none, "General", ""⟩]
    "pdf" id none (fun _ _ _ => []) (fun _ _ => []) (by decide)).1

/-- **C3.** The per-blog download dispatch serves a document for exactly
the formats html, pdf, docx, md, markdown, txt, json and csv, and for any
other format string redirects to the index flashing
`Unsupported download format`. -/
theorem claim_C3_download_formats (fmt : String) (blog : BlogView) (dn : Option String)
    (pdfR : String → String → Option String → List Nat)
    (docxR : String → String → List Nat) :
    (fmt ∈ supportedFormats →
      ∃ name mt c, download_dispatch fmt blog dn pdfR docxR = .document name mt c) ∧
    (fmt ∉ supportedFormats →
      download_dispatch fmt blog dn pdfR docxR
        = .redirectIndex ⟨"Unsupported download format", "error"⟩) := by
  constructor
  · intro h
    fin_cases h <;> exact ⟨_, _, _, rfl⟩
  · intro h
    simp only [supportedFormats, List.mem_cons, List.not_mem_nil, or_false, not_or] at h
    obtain ⟨h1, h2, h3, h4, h5, h6, h7, h8⟩ := h
    simp [download_dispatch, h1, h2, h3, h4, h5, h6, h7, h8]

/-- **C3 witness.** The html format serves a document; the format `exe`
redirects with the unsupported-format flash. -/
theorem claim_C3_download_formats_witness :
    (∃ name mt c, download_dispatch "html" ⟨"T", "d", "b", "bh", "dt"⟩ none
        (fun _ _ _ => []) (fun _ _ => []) = .document name mt c) ∧
    download_dispatch "exe" ⟨"T", "d", "b", "bh", "dt"⟩ none
        (fun _ _ _ => []) (fun _ _ => [])
      = .redirectIndex ⟨"Unsupported download format", "error"⟩ :=
  ⟨(claim_C3_download_formats "html" ⟨"T", "d", "b", "bh", "dt"⟩ none
      (fun _ _ _ => []) (fun _ _ => [])).1 (by decide),
   (claim_C3_download_formats "exe" ⟨"T", "d", "b", "bh", "dt"⟩ none
      (fun _ _ _ => []) (fun _ _ => [])).2 (by decide)⟩

theorem genLoop_calls (gen : String → String → Except String String)
    (md : String → String) (now : String) (pairs : List (String × String)) :
    (genLoop gen md now pairs).2.2 = pairs := by
  induction pairs with
  | nil => rfl
  | cons p rest ih =>
    obtain ⟨t, d⟩ := p
    cases hg : gen t d <;> simp [genLoop, hg, ih]

theorem genLoop_flash_of_error (gen : String → String → Except String String)
    (md : String → String) (now : String) {pairs : List (String × String)}
    {t d m : String} (hmem : (t, d) ∈ pairs) (herr : gen t d = .error m) :
    FlashMsg.mk ("Error generating blog '" ++ t ++ "': " ++ m) "error"
      ∈ (genLoop gen md now pairs).2.1 := by
  induction pairs with
  | nil => simp at hmem
  | cons p rest ih =>
    obtain ⟨a, b⟩ := p
    rcases List.mem_cons.mp hmem with heq | hmem'
    · injection heq with h1 h2
      subst h1; subst h2
      simp [genLoop, herr]
    · cases hg : gen a b with
      | ok body => simpa [genLoop, hg] using ih hmem'
      | error m' => simpa [genLoop, hg] using Or.inr (ih hmem')

/-- In every branch that processed titles, the flashes of the generation
loop survive into the response's flashes. -/
theorem index_post_flashes_superset (user : Option Nat)
    (gen : String → String → Except String String) (md : String → String)
    (now raw sf : String) (db : List UserBlogRec) (nid : Nat)
    (hin : (pyStripStr raw).isEmpty = false) :
    (∀ f ∈ (genLoop gen md now (parsedPairs (pyStripStr raw))).2.1,
        f ∈ (index_post user gen md now raw sf db nid).flashes) ∧
    (index_post user gen md now raw sf db nid).genCalls
      = parsedPairs (pyStripStr raw) := by
  have hcs := genLoop_calls gen md now (parsedPairs (pyStripStr raw))
  rcases hg : genLoop gen md now (parsedPairs (pyStripStr raw)) with ⟨bs, fs, cs⟩
  rw [hg] at hcs
  simp only [index_post, hin, hg, Bool.false_eq_true, if_false]
  constructor
  · intro f hf
    split_ifs <;> simp [hf]
  · simp only at hcs
    split_ifs <;> simp [hcs]

/-- **C4.** Errors are surfaced as flash messages: the global handler
flashes an `HTTPException`'s description, or `str(e)` when non-empty, and
always redirects to the index; and during an index POST each per-title
generation failure is flashed as `Error generating blog '<title>': <msg>`
while every parsed title is still handed to the generator. -/
theorem claim_C4_errors_flashed (d s : String) (e : PyExc) (user : Option Nat)
    (gen : String → String → Except String String) (md : String → String)
    (now raw sf : String) (db : List UserBlogRec) (nid : Nat)
    (hin : (pyStripStr raw).isEmpty = false) :
    handle_error (.http d) = (⟨d, "error"⟩, "index") ∧
    (s ≠ "" → handle_error (.other s) = (⟨s, "error"⟩, "index")) ∧
    (handle_error e).2 = "index" ∧
    (index_post user gen md now raw sf db nid).genCalls
      = parsedPairs (pyStripStr raw) ∧
    (∀ t dd m, (t, dd) ∈ parsedPairs (pyStripStr raw) → gen t dd = .error m →
      FlashMsg.mk ("Error generating blog '" ++ t ++ "': " ++ m) "error"
        ∈ (index_post user gen md now raw sf db nid).flashes) := by
  obtain ⟨hsup, hcalls⟩ :=
    index_post_flashes_superset user gen md now raw sf db nid hin
  refine ⟨rfl, ?_, ?_, hcalls, ?_⟩
  · intro hs
    have hse : s.isEmpty = false := by
      cases hi : s.isEmpty with
      | false => rfl
      | true => exact absurd ((String.isEmpty_iff s).mp hi) hs
    simp [handle_error, hse]
  · cases e <;> rfl
  · intro t dd m hmem herr
    exact hsup _ (genLoop_flash_of_error gen md now hmem herr)

/-- **C4 witness.** Concrete inputs: a description, a non-empty message, a
two-line POST whose second title fails to generate. -/
theorem claim_C4_errors_flashed_witness :
    handle_error (.http "D") = (⟨"D", "error"⟩, "index") ∧
    FlashMsg.mk ("Error generating blog 'B': boom") "error"
      ∈ (index_post (some 1)
          (fun t _ => if t == "B" then .error "boom" else .ok "body")
          (fun x => x) "now" "A\nB" "inline" [] 1).flashes :=
  ⟨(claim_C4_errors_flashed "D" "S" (.other "S") (some 1)
      (fun t _ => if t == "B" then .error "boom" else .ok "body")
      (fun x => x) "now" "A\nB" "inline" [] 1 (by decide)).1,
   (claim_C4_errors_flashed "D" "S" (.other "S") (some 1)
      (fun t _ => if t == "B" then .error "boom" else .ok "body")
      (fun x => x) "now" "A\nB" "inline" [] 1 (by decide)).2.2.2.2
     "B" "" "boom" (by decide) (by rfl)⟩

/-- **C5.** The schema declares `username` and `email` unique; `register`
refuses a colliding username or email with the corresponding flash and an
unchanged table, and it preserves the invariant that no two user rows
share a username or an email. -/
theorem claim_C5_register_unique (form : RegForm) (users : List UserRec) (nid : Nat)
    (hash : String → String) (h : usersUnique users) :
    usersUsernameColumn.unique = true ∧ usersEmailColumn.unique = true ∧
    usersUnique (register form users nid hash).2 ∧
    ((pyStripStr form.first_name).isEmpty = false →
     (pyStripStr form.username).isEmpty = false →
     (pyStripStr form.email).isEmpty = false →
     (pyStripStr form.password).isEmpty = false →
     form.terms = true →
      ((∃ u ∈ users, u.username = pyStripStr form.username) →
        register form users nid hash
          = (.redirectRegister ⟨"Username already exists", "error"⟩, users)) ∧
      ((∀ u ∈ users, u.username ≠ pyStripStr form.username) →
        (∃ u ∈ users, u.email = pyStripStr form.email) →
        register form users nid hash
          = (.redirectRegister ⟨"Email already registered", "error"⟩, users))) := by
  refine ⟨rfl, rfl, ?_, ?_⟩
  · simp only [register]
    split_ifs with h1 h2 h3 h4
    · exact h
    · exact h
    · exact h
    · exact h
    · have h3' := Option.not_isSome_iff_eq_none.mp h3
      have h4' := Option.not_isSome_iff_eq_none.mp h4
      rw [usersUnique, List.pairwise_append]
      refine ⟨h, List.pairwise_singleton _ _, ?_⟩
      intro a ha b hb
      rw [List.mem_singleton] at hb
      subst hb
      constructor
      · simpa using List.find?_eq_none.mp h3' a ha
      · simpa using List.find?_eq_none.mp h4' a ha
  · intro hf hu he hp ht
    have hc1 : ((pyStripStr form.first_name).isEmpty || (pyStripStr form.username).isEmpty
        || (pyStripStr form.email).isEmpty || (pyStripStr form.password).isEmpty) = false := by
      simp [hf, hu, he, hp]
    have hc2 : (!form.terms) = false := by simp [ht]
    constructor
    · rintro ⟨u, hu', huser⟩
      have hsome : (users.find? (fun x => x.username == pyStripStr form.username)).isSome = true :=
        List.find?_isSome.mpr ⟨u, hu', by simp [huser]⟩
      simp only [register, hc1, hc2, hsome, Bool.false_eq_true, if_false, if_true]
    · intro hnone
      rintro ⟨u, hu', hemail⟩
      have hns : users.find? (fun x => x.username == pyStripStr form.username) = none :=
        List.find?_eq_none.mpr (fun x hx => by simpa using hnone x hx)
      have hsome : (users.find? (fun x => x.email == pyStripStr form.email)).isSome = true :=
        List.find?_isSome.mpr ⟨u, hu', by simp [hemail]⟩
      simp only [register, hc1, hc2, hns, hsome, Option.isSome_none,
        Bool.false_eq_true, if_false, if_true]

/-- **C5 witness.** Registering a second `alice` is refused and the table
is unchanged. -/
theorem claim_C5_register_unique_witness :
    register ⟨"F", "L", "alice", "b@x", "pw", true⟩ [⟨1, "alice", "a@x", "h"⟩] 2 (fun s => s)
      = (.redirectRegister ⟨"Username already exists", "error"⟩, [⟨1, "alice", "a@x", "h"⟩]) :=
  ((claim_C5_register_unique ⟨"F", "L", "alice", "b@x", "pw", true⟩
      [⟨1, "alice", "a@x", "h"⟩] 2 (fun s => s)
      (by rw [usersUnique]; exact List.pairwise_singleton _ _)).2.2.2
    (by decide) (by decide) (by decide) (by decide) rfl).1
    ⟨⟨1, "alice", "a@x", "h"⟩, by decide, by decide⟩

/-- **C6.** With a non-blank title and a configured key, `generate_blog`
uses the google-genai client path when the library imported (wrapping its
failures in `RuntimeError`), and otherwise POSTs to the
`generativelanguage` `generateContent` endpoint, returning the text of the
first part of the first candidate's content of the JSON response and
wrapping a request failure in `RuntimeError`. -/
theorem claim_C6_generate_paths (cfg : GenConfig) (title details key : String)
    (genaiCall : String → Except String String)
    (restCall : String → RestPayload → Except String J)
    (htitle : (title.isEmpty || (pyStrip title.data).isEmpty) = false)
    (hkey : cfg.geminiApiKey = some key) (hk : key.isEmpty = false) :
    (cfg.hasGoogleGenai = true → ∀ t, genaiCall (promptFor title details) = .ok t →
      generate_blog cfg title details genaiCall restCall = .ok t) ∧
    (cfg.hasGoogleGenai = true → ∀ e, genaiCall (promptFor title details) = .error e →
      generate_blog cfg title details genaiCall restCall
        = .error (.runtimeErr ("Failed to generate blog via Gemini (google-genai): " ++ e))) ∧
    (cfg.hasGoogleGenai = false → ∀ e,
      restCall (restUrl (effectiveModel cfg) key)
          ⟨promptFor title details, "0.7", 1024⟩ = .error e →
      generate_blog cfg title details genaiCall restCall
        = .error (.runtimeErr ("Failed to generate blog via Gemini REST: " ++ e))) ∧
    (cfg.hasGoogleGenai = false →
      ∀ s partRest contentFields candFields topFields moreParts moreCands,
      restCall (restUrl (effectiveModel cfg) key) ⟨promptFor title details, "0.7", 1024⟩
        = .ok (geminiResponse s partRest contentFields candFields topFields moreParts moreCands) →
      generate_blog cfg title details genaiCall restCall = .ok s) := by
  refine ⟨?_, ?_, ?_, ?_⟩
  · intro hg t hcall
    simp [generate_blog, htitle, hkey, hk, hg, hcall]
  · intro hg e hcall
    simp [generate_blog, htitle, hkey, hk, hg, hcall]
  · intro hg e hcall
    simp [generate_blog, htitle, hkey, hk, hg, hcall]
  · intro hg s partRest contentFields candFields topFields moreParts moreCands hcall
    simp only [generate_blog, htitle, hkey, hk, hg, Bool.false_eq_true, if_false,
      if_true, hcall]
    rfl

/-- **C6 witness.** A REST-path call on a well-formed response returns the
first candidate's first part text. -/
theorem claim_C6_generate_paths_witness :
    generate_blog ⟨false, some "K", "gemini-2.5-flash"⟩ "T" "" (fun _ => .error "unused")
        (fun _ _ => .ok (geminiResponse "hello" [] [] [] [] [] [])) = .ok "hello" :=
  (claim_C6_generate_paths ⟨false, some "K", "gemini-2.5-flash"⟩ "T" "" "K"
      (fun _ => .error "unused")
      (fun _ _ => .ok (geminiResponse "hello" [] [] [] [] [] []))
      (by decide) rfl (by decide)).2.2.2 rfl "hello" [] [] [] [] [] [] rfl

/-- **C7.** Input is validated before any external call: a blank
`blog_inputs` redirects with the `Please enter at least one blog title`
flash and performs zero generator calls, and `generate_blog` raises
`ValueError` on a blank title and on a missing (or empty)
`GEMINI_API_KEY`. -/
theorem claim_C7_validation (user : Option Nat)
    (gen : String → String → Except String String) (md : String → String)
    (now raw sf : String) (db : List UserBlogRec) (nid : Nat)
    (cfg : GenConfig) (title details : String)
    (genaiCall : String → Except String String)
    (restCall : String → RestPayload → Except String J) :
    ((pyStripStr raw).isEmpty = true →
      index_post user gen md now raw sf db nid
        = ⟨.redirectIndex, [⟨"Please enter at least one blog title", "error"⟩], db, [], []⟩) ∧
    ((title.isEmpty || (pyStrip title.data).isEmpty) = true →
      generate_blog cfg title details genaiCall restCall
        = .error (.valueErr "Title cannot be empty")) ∧
    ((title.isEmpty || (pyStrip title.data).isEmpty) = false →
      cfg.geminiApiKey = none ∨ cfg.geminiApiKey = some "" →
      generate_blog cfg title details genaiCall restCall
        = .error (.valueErr
            "GEMINI_API_KEY is not configured. Please provide GEMINI_API_KEY in .env")) := by
  refine ⟨?_, ?_, ?_⟩
  · intro h
    simp [index_post, h]
  · intro h
    simp [generate_blog, h]
  · intro htitle hkey
    have hemp : ("" : String).isEmpty = true := rfl
    rcases hkey with hkey | hkey <;> simp [generate_blog, htitle, hkey, hemp]

/-- **C7 witness.** A whitespace-only POST, a whitespace-only title and a
missing key, each at concrete inputs. -/
theorem claim_C7_validation_witness :
    index_post none (fun _ _ => .ok "x") (fun x => x) "now" "   " "inline" [] 1
      = ⟨.redirectIndex, [⟨"Please enter at least one blog title", "error"⟩], [], [], []⟩ ∧
    generate_blog ⟨false, some "K", "m"⟩ "  " "" (fun _ => .ok "x") (fun _ _ => .error "e")
      = .error (.valueErr "Title cannot be empty") ∧
    generate_blog ⟨false, none, "m"⟩ "T" "" (fun _ => .ok "x") (fun _ _ => .error "e")
      = .error (.valueErr
          "GEMINI_API_KEY is not configured. Please provide GEMINI_API_KEY in .env") :=
  ⟨(claim_C7_validation none (fun _ _ => .ok "x") (fun x => x) "now" "   " "inline" [] 1
      ⟨false, some "K", "m"⟩ "  " "" (fun _ => .ok "x") (fun _ _ => .error "e")).1 (by decide),
   (claim_C7_validation none (fun _ _ => .ok "x") (fun x => x) "now" "   " "inline" [] 1
      ⟨false, some "K", "m"⟩ "  " "" (fun _ => .ok "x") (fun _ _ => .error "e")).2.1 (by decide),
   (claim_C7_validation none (fun _ _ => .ok "x") (fun x => x) "now" "   " "inline" [] 1
      ⟨false, none, "m"⟩ "T" "" (fun _ => .ok "x") (fun _ _ => .error "e")).2.2 (by decide)
     (Or.inl rfl)⟩

/-- **C1.** (Refuting the general claim; see also the single-title case.)
An authenticated user POSTs the two titles `A` and `B`, both of which
generate successfully, with `save_format = "inline"`: the route does
return a 200 render of the two blogs with no error flash, but the
persistence block sits inside the per-blog annotation loop, so FOUR
`UserBlog` rows are committed — each title twice — while a single-title
POST stores exactly one row. -/
theorem claim_C1_inline_persistence_duplicates :
    ((index_post (some 1) (fun t _ => .ok ("Body " ++ t)) (fun s => s) "2024-01-01"
        "A\nB" "inline" [] 1).db.map (fun r => (r.id, r.user_id, r.title))
      = [(1, 1, "A"), (2, 1, "B"), (3, 1, "A"), (4, 1, "B")]) ∧
    ((index_post (some 1) (fun t _ => .ok ("Body " ++ t)) (fun s => s) "2024-01-01"
        "A\nB" "inline" [] 1).outcome
      = .renderList (index_post (some 1) (fun t _ => .ok ("Body " ++ t)) (fun s => s)
          "2024-01-01" "A\nB" "inline" [] 1).sessionLast) ∧
    ((index_post (some 1) (fun t _ => .ok ("Body " ++ t)) (fun s => s) "2024-01-01"
        "A\nB" "inline" [] 1).sessionLast.length = 2) ∧
    ((index_post (some 1) (fun t _ => .ok ("Body " ++ t)) (fun s => s) "2024-01-01"
        "A\nB" "inline" [] 1).flashes = []) ∧
    ((index_post (some 1) (fun t _ => .ok ("Body " ++ t)) (fun s => s) "2024-01-01"
        "Solo" "inline" [] 1).db.map (fun r => (r.id, r.user_id, r.title))
      = [(1, 1, "Solo")]) := by
  refine ⟨by decide, by decide, by decide, by decide, by decide⟩

/-- **C8.** (Refuting the returned-warning half of the claim.)
`log_deployment` does append exactly one entry per call, and does return
`None` for an attributed deployment; but for an unattributed one
`_generate_warning` reads `missing_items` before assignment, so the call
raises `UnboundLocalError` instead of returning the warning string. -/
theorem claim_C8_log_deployment_raises :
    (log_deployment "2024-01-01T00:00:00" ⟨some "example.com", false, ["license"]⟩ []).1.length
      = 1 ∧
    (log_deployment "2024-01-01T00:00:00" ⟨some "example.com", false, ["license"]⟩ []).2
      = .error "UnboundLocalError: local variable 'missing_items' referenced before assignment" ∧
    (log_deployment "2024-01-01T00:00:00" ⟨some "example.com", true, []⟩ []).1.length = 1 ∧
    (log_deployment "2024-01-01T00:00:00" ⟨some "example.com", true, []⟩ []).2 = .ok none :=
  ⟨by decide, rfl, by decide, rfl⟩

end BlogGen
